import Mathlib

/-!
Verification of the movie CRUD service in `src/app.py` (the paginated
variant; `src/main.py` is a near-duplicate without pagination).

The store (`./data/movies.json`) holds a JSON object `{"movies": [...]}`
whose array elements are movie objects with `release_date` kept as the
ISO `YYYY-MM-DD` string produced by `json.dump(..., default=str)` on a
`datetime.date`.  We model the decoded persisted state as a list of
`MovieRecord` (string-valued date) and the validated request/response
bodies as `Movie` (structured date), mirroring pydantic validation.
-/

namespace MovieApi

/-- Calendar date, as held by a Python `datetime.date` (year, month, day). -/
structure PyDate where
  year : Nat
  month : Nat
  day : Nat
deriving DecidableEq, Repr

/-- Length of a month, with leap-year February, exactly as `datetime`
computes it (leap iff divisible by 4 and not by 100 unless by 400). -/
def daysInMonth (y m : Nat) : Nat :=
  if m = 2 then
    (if y % 4 = 0 ∧ (y % 100 ≠ 0 ∨ y % 400 = 0) then 29 else 28)
  else if m = 4 ∨ m = 6 ∨ m = 9 ∨ m = 11 then 30
  else 31

/-- Validity of a date per the `datetime.date` constructor:
1 ≤ year ≤ 9999, 1 ≤ month ≤ 12, 1 ≤ day ≤ days in that month. -/
def PyDate.valid (d : PyDate) : Bool :=
  decide (1 ≤ d.year ∧ d.year ≤ 9999 ∧ 1 ≤ d.month ∧ d.month ≤ 12 ∧
    1 ≤ d.day ∧ d.day ≤ daysInMonth d.year d.month)

/-- Decimal digit character for a digit value 0–9. -/
def digitChar (n : Nat) : Char :=
  match n with
  | 0 => '0' | 1 => '1' | 2 => '2' | 3 => '3' | 4 => '4'
  | 5 => '5' | 6 => '6' | 7 => '7' | 8 => '8' | _ => '9'

/-- Numeric value of a decimal digit character, `none` for non-digits. -/
def digitVal (c : Char) : Option Nat :=
  if 48 ≤ c.toNat ∧ c.toNat ≤ 57 then some (c.toNat - 48) else none

/-- Two-digit zero-padded decimal (`%02d`) for values below 100 — months
and days of a `datetime.date` always are. -/
def pad2 (n : Nat) : String :=
  String.mk [digitChar (n / 10 % 10), digitChar (n % 10)]

/-- Four-digit zero-padded decimal (`%04d`) for values below 10000 —
years of a `datetime.date` always are. -/
def pad4 (n : Nat) : String :=
  String.mk [digitChar (n / 1000 % 10), digitChar (n / 100 % 10),
             digitChar (n / 10 % 10), digitChar (n % 10)]

/-- Output of Python `str(date)` (= `date.isoformat()`): the ISO-8601
calendar string `YYYY-MM-DD`.  This is what `json.dump(..., default=str)`
in `write_movies` (src/app.py lines 40-42) stores for `release_date`. -/
def isoDate (d : PyDate) : String :=
  pad4 d.year ++ "-" ++ pad2 d.month ++ "-" ++ pad2 d.day

/-- Parse of an ISO `YYYY-MM-DD` string into a date, validating ranges as
the `datetime.date` constructor does — the route pydantic takes when
re-validating a stored record into a `Movie` response. -/
def parseDate (s : String) : Option PyDate :=
  match s.data with
  | [y1, y2, y3, y4, h1, m1, m2, h2, d1, d2] =>
    if h1 = '-' ∧ h2 = '-' then
      match digitVal y1, digitVal y2, digitVal y3, digitVal y4,
            digitVal m1, digitVal m2, digitVal d1, digitVal d2 with
      | some a, some b, some c, some d, some e, some f, some g, some k =>
        let dt : PyDate := ⟨a * 1000 + b * 100 + c * 10 + d, e * 10 + f, g * 10 + k⟩
        if dt.valid then some dt else none
      | _, _, _, _, _, _, _, _ => none
    else none
  | _ => none

/-- Check that a string has the ISO-8601 calendar shape: exactly ten
characters, four digits, a dash, two digits, a dash, two digits. -/
def isIsoShape (s : String) : Bool :=
  match s.data with
  | [y1, y2, y3, y4, h1, m1, m2, h2, d1, d2] =>
    (digitVal y1).isSome && (digitVal y2).isSome && (digitVal y3).isSome &&
    (digitVal y4).isSome && decide (h1 = '-') && (digitVal m1).isSome &&
    (digitVal m2).isSome && decide (h2 = '-') && (digitVal d1).isSome &&
    (digitVal d2).isSome
  | _ => false

/-- Validated movie body, the pydantic `Movie` model (src/app.py lines 12-16). -/
structure Movie where
  id : Int
  title : String
  release_date : PyDate
  director : String
deriving DecidableEq, Repr

/-- Persisted form of a movie inside `data/movies.json`: the dict produced
by `movie.dict()` once serialized, with `release_date` an ISO string (all
other fields round-trip verbatim through `json`). -/
structure MovieRecord where
  id : Int
  title : String
  release_date : String
  director : String
deriving DecidableEq, Repr

/-- Serialized form of a validated movie: `movie.dict()` as it reaches the
file after `json.dump(..., default=str)` stringifies the date. -/
def Movie.toRecord (m : Movie) : MovieRecord :=
  ⟨m.id, m.title, isoDate m.release_date, m.director⟩

/-- Re-validation of a persisted record into a `Movie`, as
`response_model=Movie` does to the raw dict returned by a handler. -/
def MovieRecord.toMovie (r : MovieRecord) : Option Movie :=
  (parseDate r.release_date).map (fun d => ⟨r.id, r.title, d, r.director⟩)

/-- Decoded persisted state: the array under the `"movies"` key. -/
abbrev Store := List MovieRecord

/-- Constant from src/app.py line 26. -/
def JSON_FILE : String := "./data/movies.json"

/-- Constant from src/app.py line 48. -/
def MIN_PAGE_SIZE : Nat := 1

/-- Constant from src/app.py line 49. -/
def MAX_PAGE_SIZE : Nat := 100

/-- Constant from src/app.py line 50. -/
def DEFAULT_PAGE_SIZE : Nat := 10

/-- Total pages as computed on src/app.py line 72:
`math.ceil(total_items / items_per_page)`, which for natural
`total_items` and positive `items_per_page` equals
`(total_items + items_per_page - 1) / items_per_page` exactly. -/
def totalPages (total_items items_per_page : Nat) : Nat :=
  (total_items + items_per_page - 1) / items_per_page

/-- Python list slice `l[start:stop]` for nonnegative bounds: the elements
at indices `start ≤ i < stop`, both bounds clamped to the length. -/
def pySlice (l : List α) (start stop : Nat) : List α :=
  (l.take stop).drop start

/-- Pagination envelope, the `PaginatedMovieResponse` model
(src/app.py lines 18-23).  `page` and `items_per_page` are modelled as
`Nat` because the route validation (`Query(ge=1)`) admits only positive
values into the handler body. -/
structure Paginated where
  total_items : Nat
  total_pages : Nat
  current_page : Nat
  items_per_page : Nat
  movies : List MovieRecord
deriving DecidableEq, Repr

/-- Error payloads raised via `HTTPException(detail=...)`: either a plain
message string or the pagination diagnostics dict of src/app.py lines 78-83. -/
inductive Detail where
  | msg (text : String)
  | pageInfo (message : String) (total_pages : Nat) (current_page : Nat) (total_items : Nat)
deriving DecidableEq, Repr

/-- Outcome of running a handler body: a value, an `HTTPException` with
status code and detail, or a Python `NameError` on an unbound name. -/
inductive PyOutcome (α : Type) where
  | ok (a : α)
  | httpError (status : Nat) (detail : Detail)
  | nameError (name : String)
deriving DecidableEq, Repr

/-- Map over the success value of an outcome. -/
def PyOutcome.map (f : α → β) : PyOutcome α → PyOutcome β
  | .ok a => .ok (f a)
  | .httpError c d => .httpError c d
  | .nameError n => .nameError n

/-- True on the two failure outcomes. -/
def PyOutcome.isError : PyOutcome α → Bool
  | .ok _ => false
  | .httpError _ _ => true
  | .nameError _ => true

/-- Body of `get_movies` (src/app.py lines 68-100) with the environment's
binding for the name `page` passed explicitly.  `some p` is the value a
`page` query parameter would supply; `none` models the name being unbound,
in which case evaluation raises `NameError` on every control path (at
line 75 when the collection is nonempty, at line 87 — after the `and`
short-circuits — when it is empty), before any response is produced.
`total_items` and `total_pages` (lines 69 and 72) are computed first,
exactly as in the source. -/
def get_movies_with (page : Option Nat) (items_per_page : Nat) (s : Store) :
    PyOutcome Paginated :=
  let total_items := s.length
  let total_pages := totalPages total_items items_per_page
  match page with
  | none => PyOutcome.nameError "page"
  | some p =>
    if 0 < total_items ∧ total_pages < p then
      PyOutcome.httpError 404 (Detail.pageInfo "Page not found" total_pages p total_items)
    else
      let start_idx := (p - 1) * items_per_page
      let end_idx := min (start_idx + items_per_page) total_items
      PyOutcome.ok ⟨total_items, total_pages, p, items_per_page, pySlice s start_idx end_idx⟩

/-- The list handler as the source declares it (src/app.py lines 52-100):
the signature (lines 53-62) binds only `items_per_page`; no `page`
parameter is declared, so the name `page` used by the body (and documented
by the docstring on lines 63-67) is unbound and the body raises
`NameError` on every request. -/
def get_movies (items_per_page : Nat) (s : Store) : PyOutcome Paginated :=
  get_movies_with none items_per_page s

/-- Movies field of the page-`p` envelope (under the intended `page`
binding), empty when the request fails. -/
def pageMovies (p items_per_page : Nat) (s : Store) : List MovieRecord :=
  match get_movies_with (some p) items_per_page s with
  | .ok r => r.movies
  | _ => []

/-- Handler `get_movie` (src/app.py lines 102-109): linear scan for the
first record whose `id` equals `movie_id`, 404 when none matches.  The
raw stored dict is returned (re-validated by `response_model=Movie`). -/
def get_movie (movie_id : Int) : Store → PyOutcome MovieRecord
  | [] => PyOutcome.httpError 404 (Detail.msg "Movie not found")
  | r :: rs => if r.id == movie_id then PyOutcome.ok r else get_movie movie_id rs

/-- Handler `create_movie` (src/app.py lines 111-122), as a transformer of
the persisted state: reject when any record shares the body's `id`
(leaving the file untouched — `write_movies` is only reached on the
success path), otherwise append the serialized body and persist. -/
def create_movie (movie : Movie) (s : Store) : Store × PyOutcome Movie :=
  if s.any (fun r => r.id == movie.id) then
    (s, PyOutcome.httpError 400 (Detail.msg "Movie ID already exists"))
  else
    (s ++ [movie.toRecord], PyOutcome.ok movie)

/-- Handler `update_movie` (src/app.py lines 124-135): scan in order; at
the first record whose `id` equals the path `movie_id`, overwrite that
position with the serialized body (whose own `id` is taken as given) and
persist; 404 when no record matches, leaving the file untouched. -/
def update_movie (movie_id : Int) (movie : Movie) : Store → Store × PyOutcome Movie
  | [] => ([], PyOutcome.httpError 404 (Detail.msg "Movie not found"))
  | r :: rs =>
    if r.id == movie_id then (movie.toRecord :: rs, PyOutcome.ok movie)
    else
      let rest := update_movie movie_id movie rs
      (r :: rest.1, rest.2)

/-- Handler `delete_movie` (src/app.py lines 137-148): scan in order;
remove the first record whose `id` equals `movie_id`, persist, and return
the confirmation message `"Movie deleted"` (not the removed record); 404
when no record matches, leaving the file untouched. -/
def delete_movie (movie_id : Int) : Store → Store × PyOutcome String
  | [] => ([], PyOutcome.httpError 404 (Detail.msg "Movie not found"))
  | r :: rs =>
    if r.id == movie_id then (rs, PyOutcome.ok "Movie deleted")
    else
      let rest := delete_movie movie_id rs
      (r :: rest.1, rest.2)

/-- One inbound request to the service, with the values the route layer
passes into the handler body. -/
inductive Request where
  | list (items_per_page : Nat)
  | getById (movie_id : Int)
  | create (movie : Movie)
  | update (movie_id : Int) (movie : Movie)
  | delete (movie_id : Int)
deriving DecidableEq, Repr

/-- Successful response bodies of the five endpoints. -/
inductive Answer where
  | pageEnv (p : Paginated)
  | movie (m : Movie)
  | record (r : MovieRecord)
  | message (text : String)
deriving DecidableEq, Repr

/-- One request/response cycle of the service: each handler re-reads the
persisted state, computes, and (only on a successful mutation) writes the
new state back.  The first component is the persisted state after the
request; the read-only handlers contain no call to `write_movies`. -/
def handle : Request → Store → Store × PyOutcome Answer
  | .list ipp, s => (s, (get_movies ipp s).map Answer.pageEnv)
  | .getById id, s => (s, (get_movie id s).map Answer.record)
  | .create mv, s =>
    let r := create_movie mv s
    (r.1, r.2.map Answer.movie)
  | .update id mv, s =>
    let r := update_movie id mv s
    (r.1, r.2.map Answer.movie)
  | .delete id, s =>
    let r := delete_movie id s
    (r.1, r.2.map Answer.message)

/-- True of the two read-only endpoints. -/
def Request.isRead : Request → Bool
  | .list _ => true
  | .getById _ => true
  | .create _ => false
  | .update _ _ => false
  | .delete _ => false

/-- Stores reachable from the initial empty collection (created by
`initialize_json`, src/app.py lines 29-32) by a sequence of requests. -/
inductive Reachable : Store → Prop
  | init : Reachable []
  | step {s : Store} (req : Request) : Reachable s → Reachable (handle req s).1

/-- Side condition under which a request provably preserves id-uniqueness:
everything except an update whose body id neither equals the path id nor
is fresh in the collection. -/
def preservesUnique (req : Request) (s : Store) : Bool :=
  match req with
  | .update id mv => mv.id == id || s.all (fun r => ! (r.id == mv.id))
  | _ => true

/-- First index of a record satisfying `p`, scanning left to right —
the position at which the update/delete loops of src/app.py act. -/
def findFirstIdx (p : MovieRecord → Bool) : Store → Option Nat
  | [] => none
  | r :: rs => if p r then some 0 else (findFirstIdx p rs).map (· + 1)

/-- Primitive file-system operations, in program order, that the Python
code performs against the backing file. -/
inductive FileOp where
  | openTrunc (path : String)
  | writeStr (path : String) (data : String)
  | rename (src dst : String)
deriving DecidableEq, Repr

/-- Effect trace of `write_movies(data)` (src/app.py lines 40-42): it opens
`JSON_FILE` itself in mode `"w"` — truncating it in place — and then
`json.dump`s the serialized contents into it.  No temporary path is
written and no rename is performed. -/
def write_movies_trace (contents : String) : List FileOp :=
  [FileOp.openTrunc JSON_FILE, FileOp.writeStr JSON_FILE contents]

/-- Effect of one file operation on a file system (map from path to
contents): a truncating open empties the file, a write appends, a rename
moves contents from source to destination. -/
def applyOp (fs : String → Option String) : FileOp → String → Option String
  | FileOp.openTrunc p => fun q => if q = p then some "" else fs q
  | FileOp.writeStr p d => fun q => if q = p then some (((fs p).getD "") ++ d) else fs q
  | FileOp.rename src dst => fun q =>
      if q = dst then fs src else if q = src then none else fs q

/-- Run a list of file operations in order. -/
def runOps (fs : String → Option String) (ops : List FileOp) : String → Option String :=
  ops.foldl applyOp fs

/-- Hexadecimal digit character for a value 0–15 (lowercase, as CPython's
json encoder emits). -/
def hexDigit (n : Nat) : Char :=
  match n with
  | 0 => '0' | 1 => '1' | 2 => '2' | 3 => '3' | 4 => '4'
  | 5 => '5' | 6 => '6' | 7 => '7' | 8 => '8' | 9 => '9'
  | 10 => 'a' | 11 => 'b' | 12 => 'c' | 13 => 'd' | 14 => 'e' | _ => 'f'

/-- Four-hex-digit rendering of a code unit, as in a json `\uXXXX` escape. -/
def hex4 (n : Nat) : String :=
  String.mk [hexDigit (n / 4096 % 16), hexDigit (n / 256 % 16),
             hexDigit (n / 16 % 16), hexDigit (n % 16)]

/-- Escape of one character by CPython's default json encoder
(`ensure_ascii=True`): quote and backslash escaped, the short control
escapes, `\uXXXX` for other controls and all non-ASCII, surrogate pairs
above the basic plane. -/
def escapeChar (c : Char) : String :=
  if c = '"' then "\\\""
  else if c = '\\' then "\\\\"
  else if c = '\n' then "\\n"
  else if c = '\t' then "\\t"
  else if c = '\r' then "\\r"
  else if c = '\x08' then "\\b"
  else if c = '\x0c' then "\\f"
  else if c.toNat < 32 then "\\u" ++ hex4 c.toNat
  else if c.toNat < 127 then String.mk [c]
  else if c.toNat ≤ 65535 then "\\u" ++ hex4 c.toNat
  else
    let v := c.toNat - 65536
    "\\u" ++ hex4 (55296 + v / 1024) ++ "\\u" ++ hex4 (56320 + v % 1024)

/-- Json string-body escaping: each character escaped in sequence. -/
def jsonEscape (s : String) : String :=
  String.join (s.data.map escapeChar)

/-- Rendering of one persisted movie object, with keys in pydantic field
order and `json.dump`'s default separators. -/
def renderRecord (r : MovieRecord) : String :=
  "\x7b\"id\": " ++ toString r.id ++ ", \"title\": \"" ++ jsonEscape r.title ++
  "\", \"release_date\": \"" ++ jsonEscape r.release_date ++
  "\", \"director\": \"" ++ jsonEscape r.director ++ "\"\x7d"

/-- Rendering of the whole persisted document `{"movies": [...]}` as
`json.dump` emits it in `write_movies`. -/
def renderStore (s : Store) : String :=
  "\x7b\"movies\": [" ++ String.intercalate ", " (s.map renderRecord) ++ "]\x7d"

/-- Sample movie used in concrete witnesses. -/
def movieA : Movie := ⟨1, "Alien", ⟨1979, 5, 25⟩, "Ridley Scott"⟩

/-- Second sample movie. -/
def movieB : Movie := ⟨2, "Blade Runner", ⟨1982, 6, 25⟩, "Ridley Scott"⟩

/-- Third sample movie, sharing `movieB`'s id but nothing else. -/
def movieB2 : Movie := ⟨2, "Brazil", ⟨1985, 2, 20⟩, "Terry Gilliam"⟩

/-- Small concrete store of three distinct records. -/
def sampleStore : Store :=
  [⟨1, "A", "2001-01-01", "D1"⟩, ⟨2, "B", "2002-02-02", "D2"⟩, ⟨3, "C", "2003-03-03", "D3"⟩]

/-- Membership in a list is equivalent to its `any` check on id equality. -/
theorem any_id_eq_iff (s : Store) (v : Int) :
    s.any (fun r => r.id == v) = true ↔ ∃ r ∈ s, r.id = v := by
  rw [List.any_eq_true]
  constructor
  · rintro ⟨r, hr, he⟩
    exact ⟨r, hr, by simpa using he⟩
  · rintro ⟨r, hr, he⟩
    exact ⟨r, hr, by simpa using he⟩

/-- C6: create rejects a duplicate id with `AlreadyExists` (HTTP 400) and
leaves the persisted collection unchanged; otherwise it appends the new
movie at the end of the collection and returns it unchanged. -/
theorem create_movie_spec (mv : Movie) (s : Store) :
    create_movie mv s =
      if ∃ r ∈ s, r.id = mv.id then
        (s, PyOutcome.httpError 400 (Detail.msg "Movie ID already exists"))
      else
        (s ++ [mv.toRecord], PyOutcome.ok mv) := by
  unfold create_movie
  by_cases h : ∃ r ∈ s, r.id = mv.id
  · simp [(any_id_eq_iff s mv.id).mpr h, h]
  · have hfalse : s.any (fun r => r.id == mv.id) = false := by
      cases hb : s.any (fun r => r.id == mv.id)
      · rfl
      · exact absurd ((any_id_eq_iff s mv.id).mp hb) h
    simp [hfalse, h]

/-- C7: update replaces the first record whose id matches the path
`movie_id` — at that same position, wholesale, all other records and their
order unchanged — and fails `NotFound` (HTTP 404) when no record matches. -/
theorem update_movie_spec (movie_id : Int) (mv : Movie) (s : Store) :
    update_movie movie_id mv s =
      match findFirstIdx (fun r => r.id == movie_id) s with
      | some i => (s.set i mv.toRecord, PyOutcome.ok mv)
      | none => (s, PyOutcome.httpError 404 (Detail.msg "Movie not found")) := by
  induction s with
  | nil => rfl
  | cons r rs ih =>
    cases h : (r.id == movie_id) with
    | true => simp [update_movie, findFirstIdx, h]
    | false =>
      simp only [update_movie, findFirstIdx, h, Bool.false_eq_true, if_neg, ite_false]
      rw [ih]
      cases hf : findFirstIdx (fun r => r.id == movie_id) rs <;> simp [hf, List.set]

/-- C8: delete removes the first record whose id matches, leaving the
relative order of the remaining records intact, and returns the
confirmation message rather than the deleted record; when no record
matches it fails `NotFound` (HTTP 404) and leaves the collection
unchanged. -/
theorem delete_movie_spec (movie_id : Int) (s : Store) :
    delete_movie movie_id s =
      match findFirstIdx (fun r => r.id == movie_id) s with
      | some i => (s.take i ++ s.drop (i + 1), PyOutcome.ok "Movie deleted")
      | none => (s, PyOutcome.httpError 404 (Detail.msg "Movie not found")) := by
  induction s with
  | nil => rfl
  | cons r rs ih =>
    cases h : (r.id == movie_id) with
    | true => simp [delete_movie, findFirstIdx, h]
    | false =>
      simp only [delete_movie, findFirstIdx, h, Bool.false_eq_true, if_neg, ite_false]
      rw [ih]
      cases hf : findFirstIdx (fun r => r.id == movie_id) rs <;> simp [hf]

/-- Mapping the success value does not change whether an outcome failed. -/
theorem map_isError (f : α → β) (o : PyOutcome α) : (o.map f).isError = o.isError := by
  cases o <;> rfl

/-- A failed update leaves the collection exactly as it was. -/
theorem update_movie_fail_frame (movie_id : Int) (mv : Movie) (s : Store)
    (h : (update_movie movie_id mv s).2.isError = true) :
    (update_movie movie_id mv s).1 = s := by
  induction s with
  | nil => rfl
  | cons r rs ih =>
    cases hb : (r.id == movie_id) with
    | true => simp [update_movie, hb, PyOutcome.isError] at h
    | false =>
      simp only [update_movie, hb, Bool.false_eq_true, ite_false] at h ⊢
      simp [ih h]

/-- A failed delete leaves the collection exactly as it was. -/
theorem delete_movie_fail_frame (movie_id : Int) (s : Store)
    (h : (delete_movie movie_id s).2.isError = true) :
    (delete_movie movie_id s).1 = s := by
  induction s with
  | nil => rfl
  | cons r rs ih =>
    cases hb : (r.id == movie_id) with
    | true => simp [delete_movie, hb, PyOutcome.isError] at h
    | false =>
      simp only [delete_movie, hb, Bool.false_eq_true, ite_false] at h ⊢
      simp [ih h]

/-- C10: no failing request writes to the store — get-by-id `NotFound`,
update `NotFound`, delete `NotFound`, create `AlreadyExists`, and every
list outcome all leave the persisted collection unchanged — and the two
read endpoints leave it unchanged even on success, as their handlers
contain no call to `write_movies`. -/
theorem failing_and_read_requests_preserve_store (req : Request) (s : Store)
    (h : (handle req s).2.isError = true ∨ req.isRead = true) :
    (handle req s).1 = s := by
  cases req with
  | list ipp => rfl
  | getById movie_id => rfl
  | create mv =>
    rcases h with h | h
    · simp only [handle, map_isError] at h
      cases hb : s.any (fun r => r.id == mv.id) with
      | true => simp [handle, create_movie, hb]
      | false => simp [create_movie, hb, PyOutcome.isError] at h
    · simp [Request.isRead] at h
  | update movie_id mv =>
    rcases h with h | h
    · simp only [handle, map_isError] at h
      simpa [handle] using update_movie_fail_frame movie_id mv s h
    · simp [Request.isRead] at h
  | delete movie_id =>
    rcases h with h | h
    · simp only [handle, map_isError] at h
      simpa [handle] using delete_movie_fail_frame movie_id s h
    · simp [Request.isRead] at h

/-- Witness: deleting an absent id from the sample store fails and leaves
the store unchanged. -/
theorem failing_and_read_requests_preserve_store_witness :
    (handle (Request.delete 99) sampleStore).1 = sampleStore :=
  failing_and_read_requests_preserve_store (Request.delete 99) sampleStore (by decide)

/-- Records of an updated collection come from the original collection or
are the update body. -/
theorem update_movie_mem (movie_id : Int) (mv : Movie) (s : Store) (x : MovieRecord)
    (hx : x ∈ (update_movie movie_id mv s).1) : x ∈ s ∨ x = mv.toRecord := by
  induction s with
  | nil => simp [update_movie] at hx
  | cons r rs ih =>
    cases hb : (r.id == movie_id) with
    | true =>
      simp only [update_movie, hb, ite_true, List.mem_cons] at hx
      rcases hx with hx | hx
      · exact Or.inr hx
      · exact Or.inl (List.mem_cons_of_mem _ hx)
    | false =>
      simp only [update_movie, hb, Bool.false_eq_true, ite_false, List.mem_cons] at hx
      rcases hx with hx | hx
      · exact Or.inl (by simp [hx])
      · rcases ih hx with hx' | hx'
        · exact Or.inl (List.mem_cons_of_mem _ hx')
        · exact Or.inr hx'

/-- A deleted collection is a sublist of the original. -/
theorem delete_movie_sublist (movie_id : Int) (s : Store) :
    (delete_movie movie_id s).1.Sublist s := by
  induction s with
  | nil => simp [delete_movie]
  | cons r rs ih =>
    cases hb : (r.id == movie_id) with
    | true =>
      simp only [delete_movie, hb, ite_true]
      exact List.sublist_cons_self r rs
    | false =>
      simp only [delete_movie, hb, Bool.false_eq_true, ite_false]
      exact List.Sublist.cons₂ r ih

/-- Negative form of the duplicate-id check. -/
theorem any_id_eq_false_iff (s : Store) (v : Int) :
    s.any (fun r => r.id == v) = false ↔ ∀ r ∈ s, r.id ≠ v := by
  rw [← Bool.not_eq_true, any_id_eq_iff]
  push_neg
  rfl

/-- Update preserves distinctness of ids when the body id equals the path
id or occurs nowhere in the collection. -/
theorem update_preserves_nodup (movie_id : Int) (mv : Movie) (s : Store)
    (h1 : (s.map fun r => r.id).Nodup)
    (h2 : mv.id = movie_id ∨ ∀ r ∈ s, r.id ≠ mv.id) :
    (((update_movie movie_id mv s).1).map fun r => r.id).Nodup := by
  induction s with
  | nil => simp [update_movie]
  | cons r rs ih =>
    rw [List.map_cons, List.nodup_cons] at h1
    obtain ⟨hr, hrs⟩ := h1
    cases hb : (r.id == movie_id) with
    | true =>
      have hrid : r.id = movie_id := by simpa using hb
      simp only [update_movie, hb, ite_true, List.map_cons, List.nodup_cons]
      refine ⟨?_, hrs⟩
      rcases h2 with h2 | h2
      · simpa [Movie.toRecord, h2, ← hrid] using hr
      · intro hmem
        rw [List.mem_map] at hmem
        obtain ⟨x, hx, hxe⟩ := hmem
        exact h2 x (List.mem_cons_of_mem _ hx) (by simpa [Movie.toRecord] using hxe)
    | false =>
      have hrid : r.id ≠ movie_id := by simpa using hb
      simp only [update_movie, hb, Bool.false_eq_true, ite_false, List.map_cons,
        List.nodup_cons]
      constructor
      · intro hmem
        rw [List.mem_map] at hmem
        obtain ⟨x, hx, hxe⟩ := hmem
        rcases update_movie_mem movie_id mv rs x hx with hx' | hx'
        · exact hr (List.mem_map.mpr ⟨x, hx', hxe⟩)
        · rcases h2 with h2 | h2
          · exact hrid (by rw [← hxe, hx', Movie.toRecord, h2])
          · exact h2 r (List.mem_cons_self r rs) (by rw [← hxe, hx']; rfl)
      · refine ih hrs ?_
        rcases h2 with h2 | h2
        · exact Or.inl h2
        · exact Or.inr (fun x hx => h2 x (List.mem_cons_of_mem _ hx))

/-- C2 (amended): every request preserves the at-most-one-Movie-per-id
invariant provided that, for update, the body's id equals the path
`movie_id` or does not already occur in the collection.  Without that
proviso update can duplicate an id (see the counterexample). -/
theorem handle_preserves_unique_ids (req : Request) (s : Store)
    (h1 : (s.map fun r => r.id).Nodup)
    (h2 : preservesUnique req s = true) :
    (((handle req s).1).map fun r => r.id).Nodup := by
  cases req with
  | list ipp => simpa [handle] using h1
  | getById movie_id => simpa [handle] using h1
  | create mv =>
    cases hb : s.any (fun r => r.id == mv.id) with
    | true => simpa [handle, create_movie, hb] using h1
    | false =>
      have hfresh := (any_id_eq_false_iff s mv.id).mp hb
      simp only [handle, create_movie, hb, Bool.false_eq_true, ite_false,
        List.map_append, List.map_cons, List.map_nil]
      rw [List.nodup_append]
      refine ⟨h1, List.nodup_singleton _, ?_⟩
      intro v hv hv'
      rw [List.mem_map] at hv
      obtain ⟨x, hx, hxe⟩ := hv
      simp only [List.mem_singleton] at hv'
      exact hfresh x hx (by rw [hxe, hv', Movie.toRecord])
  | update movie_id mv =>
    simp only [preservesUnique, Bool.or_eq_true] at h2
    have h2' : mv.id = movie_id ∨ ∀ r ∈ s, r.id ≠ mv.id := by
      rcases h2 with h2 | h2
      · exact Or.inl (by simpa using h2)
      · refine Or.inr (fun r hr => ?_)
        rw [List.all_eq_true] at h2
        simpa using h2 r hr
    simpa [handle] using update_preserves_nodup movie_id mv s h1 h2'
  | delete movie_id =>
    simp only [handle]
    exact ((delete_movie_sublist movie_id s).map (fun r => r.id)).nodup h1

/-- Witness: creating a fresh movie on the sample store keeps ids unique. -/
theorem handle_preserves_unique_ids_witness :
    (((handle (Request.create movieA) sampleStore).1).map fun r => r.id).Nodup := by
  have h := handle_preserves_unique_ids (Request.create movieA) sampleStore
    (by decide) (by decide)
  simpa using h

/-- C2 (counterexample): from the reachable two-movie store built by two
creates, updating the record at path id 1 with a body whose id is 2
succeeds and leaves two records sharing id 2. -/
theorem update_duplicate_id_counterexample :
    Reachable ((handle (Request.create movieB) (handle (Request.create movieA) []).1).1) ∧
    (handle (Request.update 1 movieB2)
        ((handle (Request.create movieB) (handle (Request.create movieA) []).1).1)).2
      = PyOutcome.ok (Answer.movie movieB2) ∧
    ¬ (((handle (Request.update 1 movieB2)
        ((handle (Request.create movieB) (handle (Request.create movieA) []).1).1)).1.map
        (fun r => r.id)).Nodup) := by
  refine ⟨Reachable.step (Request.create movieB)
    (Reachable.step (Request.create movieA) Reachable.init), by decide, by decide⟩

/-- The collection size never exceeds `totalPages * items_per_page`. -/
theorem le_totalPages_mul (N ipp : Nat) (h : 0 < ipp) : N ≤ totalPages N ipp * ipp := by
  have h3 : N + ipp - 1 < (totalPages N ipp + 1) * ipp := by
    rw [← Nat.div_lt_iff_lt_mul h]
    exact Nat.lt_succ_self _
  rw [Nat.succ_mul] at h3
  generalize totalPages N ipp * ipp = M at h3 ⊢
  omega

/-- The page count of src/app.py line 72 is the exact rational ceiling
`⌈N / items_per_page⌉` (in particular it is `0` when `N = 0`). -/
theorem totalPages_eq_ceil (N ipp : Nat) (h : 0 < ipp) :
    (totalPages N ipp : ℤ) = ⌈(N : ℚ) / (ipp : ℚ)⌉ := by
  have hq : (0 : ℚ) < (ipp : ℚ) := by exact_mod_cast h
  have ha : totalPages N ipp * ipp ≤ N + ipp - 1 := Nat.div_mul_le_self _ _
  have hb := le_totalPages_mul N ipp h
  have ha' : totalPages N ipp * ipp + 1 ≤ N + ipp := by
    have h4 : N + ipp - 1 + 1 = N + ipp := by omega
    calc totalPages N ipp * ipp + 1 ≤ N + ipp - 1 + 1 := Nat.add_le_add_right ha 1
    _ = N + ipp := h4
  have haq : (totalPages N ipp : ℚ) * ipp + 1 ≤ (N : ℚ) + ipp := by exact_mod_cast ha'
  have hbq : (N : ℚ) ≤ (totalPages N ipp : ℚ) * ipp := by exact_mod_cast hb
  symm
  rw [Int.ceil_eq_iff]
  constructor
  · rw [lt_div_iff₀ hq]
    push_cast
    nlinarith [haq, hq]
  · rw [div_le_iff₀ hq]
    push_cast
    linarith

/-- Splitting a list into consecutive `ipp`-sized chunks and concatenating
them reproduces the list, for any chunk count covering its length. -/
theorem join_chunks {α : Type} (ipp : Nat) :
    ∀ (n : Nat) (s : List α), s.length ≤ n * ipp →
      ((List.range n).map (fun k => (s.drop (k * ipp)).take ipp)).flatten = s := by
  intro n
  induction n with
  | zero =>
    intro s hs
    have hnil : s = [] := List.eq_nil_of_length_eq_zero (by omega)
    simp [hnil]
  | succ n ih =>
    intro s hs
    rw [List.range_succ_eq_map, List.map_cons, List.flatten_cons, List.map_map]
    have hfun : ((fun k => (s.drop (k * ipp)).take ipp) ∘ Nat.succ)
        = fun k => ((s.drop ipp).drop (k * ipp)).take ipp := by
      funext k
      simp only [Function.comp]
      rw [List.drop_drop, Nat.succ_mul, Nat.add_comm (k * ipp) ipp]
    rw [hfun]
    have hlen : (s.drop ipp).length ≤ n * ipp := by
      rw [List.length_drop]
      rw [Nat.succ_mul] at hs
      generalize n * ipp = M at hs ⊢
      omega
    rw [ih (s.drop ipp) hlen, Nat.zero_mul, List.drop_zero, List.take_append_drop]

/-- Success case of the list body once `page` is bound: when the 404 guard
does not fire, the envelope carries the collection size, the computed page
count, the given page and page size, and the slice of the collection. -/
theorem get_movies_with_ok (p ipp : Nat) (s : Store)
    (hcond : ¬ (0 < s.length ∧ totalPages s.length ipp < p)) :
    get_movies_with (some p) ipp s =
      PyOutcome.ok ⟨s.length, totalPages s.length ipp, p, ipp,
        pySlice s ((p - 1) * ipp) (min ((p - 1) * ipp + ipp) s.length)⟩ := by
  simp only [get_movies_with]
  rw [if_neg hcond]

/-- The movies of page `k+1` (pages counted from 1) are the `k`-th
`ipp`-sized chunk of the collection, for every in-range page. -/
theorem pageMovies_eq (ipp : Nat) (s : Store) (k : Nat)
    (hk : k < totalPages s.length ipp) :
    pageMovies (k + 1) ipp s = (s.drop (k * ipp)).take ipp := by
  have hcond : ¬ (0 < s.length ∧ totalPages s.length ipp < k + 1) := by
    rintro ⟨-, hlt⟩
    omega
  rw [pageMovies, get_movies_with_ok _ _ _ hcond]
  simp only [Nat.add_sub_cancel]
  unfold pySlice
  rcases le_or_lt (k * ipp + ipp) s.length with hle | hlt
  · rw [min_eq_left hle, List.drop_take, Nat.add_sub_cancel_left]
  · rw [min_eq_right (le_of_lt hlt), List.take_length]
    have hlen : (s.drop (k * ipp)).length ≤ ipp := by
      rw [List.length_drop]
      generalize k * ipp = M at hlt ⊢
      omega
    rw [List.take_of_length_le hlen]

/-- C1 (code bug): the handler as declared accepts no `page` parameter and
raises `NameError` on every request; with `page` bound as the docstring
and the pagination logic intend, a request with `page ≤ total_pages`
returns exactly the slice `collection[start:end]` with
`start = (page-1)*items_per_page` and `end = min(start+items_per_page,
total_items)` in an envelope reporting `current_page = page` and
`items_per_page` as given. -/
theorem get_movies_page_param_missing (page ipp : Nat) (s : Store)
    (h0 : 1 ≤ page) (h1 : 1 ≤ ipp) (h2 : ipp ≤ 100)
    (h3 : page ≤ totalPages s.length ipp) :
    get_movies ipp s = PyOutcome.nameError "page" ∧
    get_movies_with (some page) ipp s =
      PyOutcome.ok ⟨s.length, totalPages s.length ipp, page, ipp,
        pySlice s ((page - 1) * ipp) (min ((page - 1) * ipp + ipp) s.length)⟩ :=
  ⟨rfl, get_movies_with_ok page ipp s (by rintro ⟨-, hlt⟩; omega)⟩

/-- Witness for C1 at page 1, size 10, on the three-record sample store. -/
theorem get_movies_page_param_missing_witness :
    get_movies 10 sampleStore = PyOutcome.nameError "page" ∧
    get_movies_with (some 1) 10 sampleStore =
      PyOutcome.ok ⟨sampleStore.length, totalPages sampleStore.length 10, 1, 10,
        pySlice sampleStore ((1 - 1) * 10) (min ((1 - 1) * 10 + 10) sampleStore.length)⟩ :=
  get_movies_page_param_missing 1 10 sampleStore (by decide) (by decide) (by decide)
    (by decide)

/-- C3 (code bug): the handler as declared raises `NameError` and reports
nothing; the pagination arithmetic it was meant to run reports
`total_pages = ⌈N / items_per_page⌉` (0 when N = 0), and concatenating the
`movies` of pages `1..total_pages` reconstructs the collection in order,
each record exactly once. -/
theorem total_pages_ceil_and_pages_reconstruct (ipp : Nat) (s : Store)
    (h1 : 1 ≤ ipp) (h2 : ipp ≤ 100) :
    get_movies ipp s = PyOutcome.nameError "page" ∧
    (totalPages s.length ipp : ℤ) = ⌈(s.length : ℚ) / (ipp : ℚ)⌉ ∧
    ((List.range (totalPages s.length ipp)).map
        (fun k => pageMovies (k + 1) ipp s)).flatten = s := by
  refine ⟨rfl, totalPages_eq_ceil _ _ h1, ?_⟩
  have hmap : (List.range (totalPages s.length ipp)).map (fun k => pageMovies (k + 1) ipp s)
      = (List.range (totalPages s.length ipp)).map (fun k => (s.drop (k * ipp)).take ipp) := by
    apply List.map_congr_left
    intro k hk
    exact pageMovies_eq ipp s k (List.mem_range.mp hk)
  rw [hmap, join_chunks ipp _ s (le_totalPages_mul s.length ipp h1)]

/-- Witness for C3 at size 10 on the three-record sample store. -/
theorem total_pages_ceil_and_pages_reconstruct_witness :
    get_movies 10 sampleStore = PyOutcome.nameError "page" ∧
    (totalPages sampleStore.length 10 : ℤ) = ⌈(sampleStore.length : ℚ) / ((10 : Nat) : ℚ)⌉ ∧
    ((List.range (totalPages sampleStore.length 10)).map
        (fun k => pageMovies (k + 1) 10 sampleStore)).flatten = sampleStore :=
  total_pages_ceil_and_pages_reconstruct 10 sampleStore (by decide) (by decide)

/-- C4 (code bug): the handler as declared raises `NameError` before any
of this can happen; the body it was meant to run fails 404 with the
diagnostics payload `{total_pages, current_page: page, total_items}` when
the collection is nonempty and `page > total_pages`, and succeeds with an
empty page (total_items 0, total_pages 0) for every `page ≥ 1` on the
empty collection. -/
theorem page_out_of_range_and_empty_page_policy (page ipp : Nat) (s t : Store)
    (h0 : 1 ≤ page) (h1 : 1 ≤ ipp) (h2 : ipp ≤ 100)
    (hs : 0 < s.length) (hp : totalPages s.length ipp < page) (ht : t = []) :
    get_movies ipp s = PyOutcome.nameError "page" ∧
    get_movies_with (some page) ipp s =
      PyOutcome.httpError 404
        (Detail.pageInfo "Page not found" (totalPages s.length ipp) page s.length) ∧
    get_movies_with (some page) ipp t =
      PyOutcome.ok ⟨0, 0, page, ipp, []⟩ := by
  refine ⟨rfl, ?_, ?_⟩
  · simp only [get_movies_with]
    rw [if_pos ⟨hs, hp⟩]
  · subst ht
    have h0tp : totalPages 0 ipp = 0 := Nat.div_eq_of_lt (by omega)
    simp only [get_movies_with, List.length_nil, h0tp]
    rw [if_neg (by simp)]
    simp [pySlice]

/-- Witness for C4 at page 4, size 1, nonempty sample store and the empty
store. -/
theorem page_out_of_range_and_empty_page_policy_witness :
    get_movies 1 sampleStore = PyOutcome.nameError "page" ∧
    get_movies_with (some 4) 1 sampleStore =
      PyOutcome.httpError 404
        (Detail.pageInfo "Page not found" (totalPages sampleStore.length 1) 4
          sampleStore.length) ∧
    get_movies_with (some 4) 1 [] = PyOutcome.ok ⟨0, 0, 4, 1, []⟩ :=
  page_out_of_range_and_empty_page_policy 4 1 sampleStore [] (by decide) (by decide)
    (by decide) (by decide) (by decide) rfl

/-- Digit characters decode back to the digit they encode. -/
theorem digitVal_digitChar (n : Nat) (h : n < 10) : digitVal (digitChar n) = some n := by
  interval_cases n <;> decide

/-- Character sequence of the ISO rendering of a date. -/
theorem isoDate_data (d : PyDate) :
    (isoDate d).data =
      [digitChar (d.year / 1000 % 10), digitChar (d.year / 100 % 10),
       digitChar (d.year / 10 % 10), digitChar (d.year % 10), '-',
       digitChar (d.month / 10 % 10), digitChar (d.month % 10), '-',
       digitChar (d.day / 10 % 10), digitChar (d.day % 10)] := by
  simp [isoDate, pad4, pad2, String.data_append]

/-- Parsing the ISO rendering of a valid date recovers the date. -/
theorem parseDate_isoDate (d : PyDate) (h : d.valid = true) :
    parseDate (isoDate d) = some d := by
  rw [PyDate.valid, decide_eq_true_eq] at h
  obtain ⟨hy1, hy2, hm1, hm2, hd1, hd2⟩ := h
  have hd31 : daysInMonth d.year d.month ≤ 31 := by
    rw [daysInMonth]
    split
    · split <;> omega
    · split <;> omega
  have hmod : ∀ a : Nat, a % 10 < 10 := fun a => Nat.mod_lt _ (by norm_num)
  rw [parseDate, isoDate_data]
  simp only [digitVal_digitChar _ (hmod _)]
  simp only [and_self, if_true]
  have hy : d.year / 1000 % 10 * 1000 + d.year / 100 % 10 * 100 + d.year / 10 % 10 * 10
      + d.year % 10 = d.year := by omega
  have hmm : d.month / 10 % 10 * 10 + d.month % 10 = d.month := by omega
  have hdd : d.day / 10 % 10 * 10 + d.day % 10 = d.day := by omega
  simp only [hy, hmm, hdd]
  have hvalid : ({ year := d.year, month := d.month, day := d.day } : PyDate).valid = true := by
    rw [PyDate.valid, decide_eq_true_eq]
    exact ⟨hy1, hy2, hm1, hm2, hd1, hd2⟩
  rw [if_pos hvalid]

/-- The ISO rendering of any date has the `YYYY-MM-DD` shape. -/
theorem isIsoShape_isoDate (d : PyDate) : isIsoShape (isoDate d) = true := by
  have hmod : ∀ a : Nat, a % 10 < 10 := fun a => Nat.mod_lt _ (by norm_num)
  rw [isIsoShape, isoDate_data]
  simp [digitVal_digitChar _ (hmod _)]

/-- Getting an id that occurs only as the last, appended record finds that
record. -/
theorem get_movie_append_fresh (mv : Movie) (s : Store) (h : ∀ r ∈ s, r.id ≠ mv.id) :
    get_movie mv.id (s ++ [mv.toRecord]) = PyOutcome.ok mv.toRecord := by
  induction s with
  | nil => simp [get_movie, Movie.toRecord]
  | cons r rs ih =>
    have hne : (r.id == mv.id) = false := by
      simpa using h r (List.mem_cons_self r rs)
    simp only [List.cons_append, get_movie, hne, Bool.false_eq_true, ite_false]
    exact ih (fun x hx => h x (List.mem_cons_of_mem _ hx))

/-- C9: the store serializes `release_date` as the ISO-8601 `YYYY-MM-DD`
string and round-trips every valid Movie with identical field values
(re-validation of the stored record reproduces the Movie exactly);
consequently creating a Movie whose id is fresh and immediately getting it
by id succeeds and returns the very record just stored. -/
theorem movie_roundtrip_create_get (m : Movie) (s : Store)
    (hvalid : m.release_date.valid = true)
    (hfresh : ∀ r ∈ s, r.id ≠ m.id) :
    m.toRecord.release_date = isoDate m.release_date ∧
    isIsoShape (isoDate m.release_date) = true ∧
    m.toRecord.toMovie = some m ∧
    (handle (Request.create m) s).2 = PyOutcome.ok (Answer.movie m) ∧
    get_movie m.id (handle (Request.create m) s).1 = PyOutcome.ok m.toRecord := by
  have hany : s.any (fun r => r.id == m.id) = false := (any_id_eq_false_iff s m.id).mpr hfresh
  refine ⟨rfl, isIsoShape_isoDate _, ?_, ?_, ?_⟩
  · rw [MovieRecord.toMovie]
    show (parseDate (isoDate m.release_date)).map _ = _
    rw [parseDate_isoDate _ hvalid]
    rfl
  · simp [handle, create_movie, hany, PyOutcome.map]
  · simp only [handle, create_movie, hany, Bool.false_eq_true, ite_false]
    exact get_movie_append_fresh m s hfresh

/-- Witness for C9: creating `movieA` on the empty store and reading it
back round-trips all fields. -/
theorem movie_roundtrip_create_get_witness :
    movieA.toRecord.release_date = isoDate movieA.release_date ∧
    isIsoShape (isoDate movieA.release_date) = true ∧
    movieA.toRecord.toMovie = some movieA ∧
    (handle (Request.create movieA) []).2 = PyOutcome.ok (Answer.movie movieA) ∧
    get_movie movieA.id (handle (Request.create movieA) []).1
      = PyOutcome.ok movieA.toRecord :=
  movie_roundtrip_create_get movieA [] (by decide) (by simp)

/-- C5 (counterexample): every file operation `write_movies` performs
targets `JSON_FILE` itself — none is a rename, and the first is a
truncating open of the target — so the implementation does not write to a
temporary location and atomically rename it into place. -/
theorem write_movies_no_temp_rename_counterexample :
    ((write_movies_trace "x").all fun op =>
        match op with
        | FileOp.openTrunc p => p == JSON_FILE
        | FileOp.writeStr p _ => p == JSON_FILE
        | FileOp.rename _ _ => false) = true ∧
    (write_movies_trace "x").head? = some (FileOp.openTrunc JSON_FILE) := by
  decide

/-- C5 (amended): `write_movies` truncates `JSON_FILE` in place and then
writes the new contents into it; after the truncating open but before the
write completes the file holds the empty string — which is not the
rendering of any collection, so prior state is not recoverable there by a
reader — and only after the final operation does it hold the new
contents.  No temporary file and no rename are involved. -/
theorem write_movies_truncates_in_place (prior contents : String)
    (fs : String → Option String) (st : Store)
    (h : fs JSON_FILE = some prior) :
    runOps fs ((write_movies_trace contents).take 1) JSON_FILE = some "" ∧
    runOps fs (write_movies_trace contents) JSON_FILE = some contents ∧
    renderStore st ≠ "" := by
  refine ⟨?_, ?_, ?_⟩
  · simp [runOps, write_movies_trace, applyOp]
  · simp [runOps, write_movies_trace, applyOp]
  · intro hcontra
    have hlen := congrArg String.length hcontra
    rw [renderStore] at hlen
    rw [String.length_append, String.length_append] at hlen
    have h1 : ("\x7b\"movies\": [" : String).length = 12 := rfl
    have h2 : ("]\x7d" : String).length = 2 := rfl
    have h3 : ("" : String).length = 0 := rfl
    omega

/-- Witness for C5 (amended) on a concrete one-file file system holding
prior contents `"old"`. -/
theorem write_movies_truncates_in_place_witness :
    runOps (fun p => if p = JSON_FILE then some "old" else none)
        ((write_movies_trace "new").take 1) JSON_FILE = some "" ∧
    runOps (fun p => if p = JSON_FILE then some "old" else none)
        (write_movies_trace "new") JSON_FILE = some "new" ∧
    renderStore sampleStore ≠ "" :=
  write_movies_truncates_in_place "old" "new"
    (fun p => if p = JSON_FILE then some "old" else none) sampleStore (by simp)

end MovieApi
